import Mathlib

/-!
# Passenger details form (`src/components/checkout/PassengerDetails.jsx`)

A shallow embedding of the three pieces of logic of the `PassengerDetails`
component:

* `paxDefaults`, the default passenger records built from the search filter;
* `handleNextTraveler`, the stepper's "next" handler;
* `onSubmit`, which turns the form record into the booking payload.

JavaScript values that the component only copies or tests for truthiness are
kept as `JsVal`.  The functions the component imports from elsewhere
(`trigger` of the form library, `getTotalPrice`, the `Date` constructor and
`toISOString`) are parameters of the definitions that call them.
-/

namespace PassengerDetails

/-! ## JavaScript values -/

/-- A JavaScript value.  Numbers are kept as integers: the component never
computes with them, it only copies them and tests them for truthiness. -/
inductive JsVal where
  | undefined
  | null
  | bool (b : Bool)
  | num (n : Int)
  | str (s : String)
  | arr (items : List JsVal)
  | obj (props : List (String × JsVal))

/-- Truthiness of a value (`ToBoolean`). -/
def JsVal.truthy : JsVal → Bool
  | .undefined => false
  | .null => false
  | .bool b => b
  | .num n => n != 0
  | .str s => s != ""
  | .arr _ => true
  | .obj _ => true

/-- The operator `a || b`: `a` when it is truthy, `b` otherwise. -/
def jsOr (a b : JsVal) : JsVal :=
  if a.truthy then a else b

/-- The test `v === "lit"` against a string literal. -/
def strictEqStr (v : JsVal) (lit : String) : Bool :=
  match v with
  | .str s => s == lit
  | _ => false

/-- The exceptions the component can raise. -/
inductive JsError where
  | typeError
  | rangeError
deriving DecidableEq, Repr

/-- The two members of the JavaScript `Date` API used by `onSubmit`:
`construct v` is the time value of `new Date(v)`, or `none` when the result is
an Invalid Date; `toISOString t` formats a valid time value. -/
structure JsDate where
  construct : JsVal → Option Int
  toISOString : Int → String

/-- The expression `new Date(v).toISOString()`: raises a `RangeError` on an
Invalid Date. -/
def JsDate.isoOf (D : JsDate) (v : JsVal) : Except JsError JsVal :=
  match D.construct v with
  | none => .error .rangeError
  | some t => .ok (.str (D.toISOString t))

/-! ## The form record -/

structure Phone where
  country_code : JsVal
  area_code : JsVal
  phone_number : JsVal

structure Contact where
  email : JsVal
  phone : Phone

structure Passport where
  no : JsVal
  end_date : JsVal
  citizenship_country : JsVal

structure Cnic where
  no : JsVal

structure Foid where
  no : JsVal
  citizenship_country : JsVal

structure Tc where
  no : JsVal
  hes_code : JsVal

/-- The `identity_info` record of the form: it holds all four document
sub-records at once, whatever the selected `type`. -/
structure IdentityInfo where
  type : JsVal
  passport : Passport
  cnic : Cnic
  foid : Foid
  tc : Tc
  not_turkish_citizen : JsVal
  not_pakistan_citizen : JsVal

structure Pax where
  type : JsVal
  name : JsVal
  lastname : JsVal
  birthdate : JsVal
  gender : JsVal
  identity_info : IdentityInfo

structure FormData where
  contact : Contact
  pax_list : List Pax

/-! ## The stores -/

/-- One `(type, count)` group of the search filter's `pax_list`. -/
structure PaxGroup where
  type : JsVal
  count : Int

structure FlightsFilter where
  pax_list : List PaxGroup

structure Fare where
  fare_info : JsVal

/-- A flight record of the flights store: its `fares` list (possibly absent,
possibly with absent entries) and the rest of its properties. -/
structure Flight where
  fares : Option (List (Option Fare))
  rest : JsVal

structure FareDetails where
  fare_detail_key : JsVal

/-- The part of the flights store read by the component.  The field
`dapart_flight` is spelled as in the source. -/
structure FlightsStore where
  fare_details : Option FareDetails
  dapart_flight : Option Flight
  return_flight : Option Flight

/-! ## The booking payload -/

/-- The `identity_info` of a payload passenger: a document key that is not
present on the object is `none`. -/
structure IdentityOut where
  type : JsVal
  not_turkish_citizen : JsVal
  not_pakistan_citizen : JsVal
  passport : Option Passport
  cnic : Option Cnic
  foid : Option Foid
  tc : Option Tc

structure PaxOut where
  name : JsVal
  lastname : JsVal
  birthdate : JsVal
  type : JsVal
  gender : JsVal
  identity_info : IdentityOut

structure BookDetails where
  fare_detail_key : JsVal
  contact : Contact
  pax_list : List PaxOut
  notes : String
  accept_pending : Bool

structure FlightDetails where
  depart_flight : Option Flight
  return_flight : Option Flight

structure Payload where
  book_details : BookDetails
  flight_details : FlightDetails
  grand_total : JsVal

/-! ## `paxDefaults` (lines 20-49) -/

/-- The record produced by the callback of `Array.from` for a group of the
given passenger type. -/
def defaultPax (type : JsVal) : Pax :=
  { type := type
    name := .str ""
    lastname := .str ""
    birthdate := .str ""
    gender := .str "MALE"
    identity_info :=
      { type := .str "PASSPORT"
        passport := { no := .str "", end_date := .str "", citizenship_country := .str "SY" }
        cnic := { no := .str "" }
        foid := { no := .str "", citizenship_country := .str "SY" }
        tc := { no := .str "", hes_code := .str "" }
        not_turkish_citizen := .bool false
        not_pakistan_citizen := .bool false } }

/-- The call `Array.from({ length: n }, fn)` for an integer `n`: the callback
runs once per index below `n`, and a negative length gives the empty array. -/
def arrayFromLength {α : Type} (n : Int) (fn : Nat → α) : List α :=
  (List.range n.toNat).map fn

/-- The default passenger list
`flightsFilter.pax_list.flatMap((pax) => Array.from({ length: pax.count }, ...))`. -/
def paxDefaults (flightsFilter : FlightsFilter) : List Pax :=
  flightsFilter.pax_list.flatMap
    (fun pax => arrayFromLength pax.count (fun _ => defaultPax pax.type))

/-! ## `handleNextTraveler` (lines 80-96) -/

/-- The argument of `trigger`: one field name, or an array of field names. -/
inductive TriggerArg where
  | name (n : String)
  | names (ns : List String)

/-- The field names a `trigger` call asks to validate. -/
def TriggerArg.fields : TriggerArg → List String
  | .name n => [n]
  | .names ns => ns

/-- The template literal `pax_list.${index}`. -/
def paxField (index : Nat) : String :=
  "pax_list." ++ toString index

/-- What a call of `handleNextTraveler` does: the one `trigger` call it makes
and the `setActive` call it makes, if any. -/
structure NextEffects where
  triggered : TriggerArg
  setActive : Option Int

/-- The handler `handleNextTraveler(index)`; `trigger` is the validation
function of the form library, answering for the current form state. -/
def handleNextTraveler (trigger : TriggerArg → Bool) (index : Nat) : NextEffects :=
  let arg : TriggerArg :=
    if index = 0 then .names ["contact.email", "contact.phone", paxField index]
    else .name (paxField index)
  let valid := trigger arg
  { triggered := arg
    setActive := if valid then some ((index : Int) + 1) else none }

/-- The `active` state after the handler's `setActive` call, if it made one. -/
def applySetActive (active : Int) : Option Int → Int
  | none => active
  | some a => a

/-- The `active` step after a next request on step `index`. -/
def nextRequest (trigger : TriggerArg → Bool) (index : Nat) (active : Int) : Int :=
  applySetActive active (handleNextTraveler trigger index).setActive

/-- The condition `active === fields.length - 1` under which the submit button
is rendered (lines 248-252). -/
def submitRendered (active : Int) (fieldsLength : Nat) : Bool :=
  active == (fieldsLength : Int) - 1

/-! ## `onSubmit` (lines 102-202) -/

/-- The optional chain `flight?.fares?.[0]?.fare_info`. -/
def firstFareInfo (flight : Option Flight) : JsVal :=
  match flight with
  | none => .undefined
  | some f =>
    match f.fares with
    | none => .undefined
    | some fares =>
      match fares[0]? with
      | some (some fare) => fare.fare_info
      | _ => .undefined

/-- The immediately invoked function that builds a passenger's
`identity_info` (lines 129-184). -/
def identityInfo (D : JsDate) (pax : Pax) : Except JsError IdentityOut :=
  let identityType := pax.identity_info.type
  let base : IdentityOut :=
    { type := identityType
      not_turkish_citizen := jsOr pax.identity_info.not_turkish_citizen (.bool false)
      not_pakistan_citizen := jsOr pax.identity_info.not_pakistan_citizen (.bool false)
      passport := none
      cnic := none
      foid := none
      tc := none }
  if strictEqStr identityType "PASSPORT" then
    match D.isoOf pax.identity_info.passport.end_date with
    | .error e => .error e
    | .ok iso =>
      .ok { base with
        passport := some
          { no := pax.identity_info.passport.no
            end_date := iso
            citizenship_country := pax.identity_info.passport.citizenship_country } }
  else if strictEqStr identityType "CNIC" then
    .ok { base with cnic := some { no := pax.identity_info.cnic.no } }
  else if strictEqStr identityType "FOID" then
    .ok { base with
      foid := some
        { no := pax.identity_info.foid.no
          citizenship_country := pax.identity_info.foid.citizenship_country } }
  else if strictEqStr identityType "TC" then
    .ok { base with
      tc := some
        { no := pax.identity_info.tc.no
          hes_code := jsOr pax.identity_info.tc.hes_code (.str "") } }
  else
    .ok base

/-- The callback of `data.pax_list.map` (lines 122-185). -/
def paxEntry (D : JsDate) (pax : Pax) : Except JsError PaxOut :=
  match identityInfo D pax with
  | .error e => .error e
  | .ok info =>
    .ok { name := pax.name
          lastname := pax.lastname
          birthdate := pax.birthdate
          type := pax.type
          gender := pax.gender
          identity_info := info }

/-- The method `Array.prototype.map` with a callback that may raise: the elements are
visited in order and the first exception ends the call. -/
def mapRaising {α β : Type} (f : α → Except JsError β) : List α → Except JsError (List β)
  | [] => .ok []
  | a :: rest =>
    match f a with
    | .error e => .error e
    | .ok b =>
      match mapRaising f rest with
      | .error e => .error e
      | .ok bs => .ok (b :: bs)

/-- The object literal `payload` (lines 108-197), evaluated in source order:
`fare_details.fare_detail_key` first, then the contact, then the passengers. -/
def buildPayload (D : JsDate) (store : FlightsStore) (data : FormData) (total : JsVal) :
    Except JsError Payload :=
  match store.fare_details with
  | none => .error .typeError
  | some fd =>
    match mapRaising (paxEntry D) data.pax_list with
    | .error e => .error e
    | .ok paxs =>
      .ok { book_details :=
              { fare_detail_key := fd.fare_detail_key
                contact :=
                  { email := data.contact.email
                    phone :=
                      { country_code := data.contact.phone.country_code
                        area_code := data.contact.phone.area_code
                        phone_number := data.contact.phone.phone_number } }
                pax_list := paxs
                notes := "Booking from Al3asal Travel Agency"
                accept_pending := true }
            flight_details :=
              { depart_flight := store.dapart_flight
                return_flight := store.return_flight }
            grand_total := total }

/-- What a call of `onSubmit` does: the payloads it logs, the payloads it
passes to `bookFlight`, and the exception that ended it, if any. -/
structure SubmitEffects where
  logged : List Payload
  booked : List Payload
  raised : Option JsError

/-- The handler `onSubmit(data)`.  `getTotalPrice` is the helper imported from
`./priceDetails/utils`, taken as a function of the two fare objects. -/
def onSubmit (D : JsDate) (getTotalPrice : JsVal → JsVal → JsVal)
    (store : FlightsStore) (data : FormData) : SubmitEffects :=
  let departFares := firstFareInfo store.dapart_flight
  let returnFares := firstFareInfo store.return_flight
  let total := getTotalPrice departFares returnFares
  match buildPayload D store data total with
  | .error e => { logged := [], booked := [], raised := some e }
  | .ok payload => { logged := [payload], booked := [payload], raised := none }

/-! ## Concrete inputs

Inputs on which the definitions above are evaluated. -/

/-- A `Date` API in which `new Date("2030-01-01")` is the one valid date. -/
def sampleDate : JsDate :=
  { construct := fun v =>
      match v with
      | .str "2030-01-01" => some 1893456000000
      | _ => none
    toISOString := fun _ => "2030-01-01T00:00:00.000Z" }

/-- A total-price helper: the sum of two numeric fares, zero otherwise. -/
def sampleTotalPrice (a b : JsVal) : JsVal :=
  match a, b with
  | .num x, .num y => .num (x + y)
  | .num x, _ => .num x
  | _, .num y => .num y
  | _, _ => .num 0

/-- A store with a fare key, a departing flight with one fare and no return
flight. -/
def sampleStore : FlightsStore :=
  { fare_details := some { fare_detail_key := .str "FDK-1" }
    dapart_flight := some { fares := some [some { fare_info := .num 4907 }], rest := .obj [] }
    return_flight := none }

/-- A passenger of the given identity type whose passport ends on the given
date; every other field is the form default of an adult. -/
def samplePax (identityType : JsVal) (endDate : String) : Pax :=
  { defaultPax (.str "ADT") with
    name := .str "Sami"
    identity_info :=
      { (defaultPax (.str "ADT")).identity_info with
        type := identityType
        passport := { no := .str "N1", end_date := .str endDate, citizenship_country := .str "SY" } } }

/-- A form record with an empty contact and the given passengers. -/
def sampleForm (paxs : List Pax) : FormData :=
  { contact :=
      { email := .str "a@b.c"
        phone := { country_code := .str "963", area_code := .str "11", phone_number := .str "5550" } }
    pax_list := paxs }

/-! ## Field names are distinct for distinct indices -/

/-- The number a list of decimal digit characters stands for, read from the
left on top of the value `acc` read so far. -/
def digitsValue (acc : Nat) (ds : List Char) : Nat :=
  ds.foldl (fun a c => a * 10 + (c.toNat - 48)) acc

theorem digitChar_value (k : Nat) (hk : k < 10) : (Nat.digitChar k).toNat - 48 = k := by
  interval_cases k <;> rfl

theorem digitsValue_toDigitsCore (fuel : Nat) :
    ∀ (n : Nat) (ds : List Char), n < fuel →
      digitsValue 0 (Nat.toDigitsCore 10 fuel n ds) = digitsValue n ds := by
  induction fuel with
  | zero => intro n ds h; omega
  | succ fuel ih =>
    intro n ds h
    have hd : (Nat.digitChar (n % 10)).toNat - 48 = n % 10 :=
      digitChar_value (n % 10) (Nat.mod_lt n (by decide))
    unfold Nat.toDigitsCore
    by_cases h0 : n / 10 = 0
    · have hn : n % 10 = n := Nat.mod_eq_of_lt (by omega)
      rw [hn] at hd
      simp only [h0, if_true]
      simp [digitsValue, List.foldl_cons, hd, hn]
    · simp only [h0, if_false]
      rw [ih (n / 10) _ (by omega)]
      have hn : n / 10 * 10 + n % 10 = n := by omega
      simp [digitsValue, List.foldl_cons, hd, hn]

theorem digitsValue_repr (n : Nat) : digitsValue 0 (Nat.repr n).data = n := by
  simp only [Nat.repr, Nat.toDigits, List.asString]
  rw [digitsValue_toDigitsCore (n + 1) n [] (by omega)]
  rfl

theorem paxField_injective (i j : Nat) (h : paxField i = paxField j) : i = j := by
  have h1 : (paxField i).data = (paxField j).data := by rw [h]
  simp only [paxField, String.data_append, List.append_cancel_left_eq] at h1
  have h2 : digitsValue 0 (Nat.repr i).data = digitsValue 0 (Nat.repr j).data := by
    show digitsValue 0 (toString i).data = digitsValue 0 (toString j).data
    rw [h1]
  rwa [digitsValue_repr, digitsValue_repr] at h2

theorem paxField_ne_contact (i : Nat) :
    paxField i ≠ "contact.email" ∧ paxField i ≠ "contact.phone" := by
  constructor <;>
  · intro h
    have h1 := congrArg String.data h
    simp [paxField, String.data_append] at h1

/-! ## The stepper -/

/-- C1: for every step index and every current active step, a next request on
step `i` leaves the active step at `i + 1` when the validation it triggers
passes and at its current value when that validation fails. -/
theorem nextRequest_active (trigger : TriggerArg → Bool) (i : Nat) (active : Int) :
    nextRequest trigger i active =
      if trigger (handleNextTraveler trigger i).triggered = true then (i : Int) + 1
      else active := by
  unfold nextRequest handleNextTraveler
  by_cases h : trigger
      (if i = 0 then TriggerArg.names ["contact.email", "contact.phone", paxField i]
       else TriggerArg.name (paxField i)) = true
  · simp [h, applySetActive]
  · simp [h, applySetActive]

/-- C2: the fields validated by a next request on step `i` are exactly
`contact.email`, `contact.phone` and `pax_list.0` when `i = 0` and exactly
`pax_list.i` otherwise; no other traveler's field is among them, and the
contact fields are among them only on step 0. -/
theorem handleNextTraveler_fields (trigger : TriggerArg → Bool) (i j : Nat) :
    (handleNextTraveler trigger i).triggered.fields =
        (if i = 0 then ["contact.email", "contact.phone", "pax_list.0"]
         else ["pax_list." ++ toString i]) ∧
      (j ≠ i → paxField j ∉ (handleNextTraveler trigger i).triggered.fields) ∧
      (i ≠ 0 → "contact.email" ∉ (handleNextTraveler trigger i).triggered.fields ∧
        "contact.phone" ∉ (handleNextTraveler trigger i).triggered.fields) := by
  have hj := paxField_ne_contact j
  have hi := paxField_ne_contact i
  by_cases h0 : i = 0
  · subst h0
    have hz : "pax_list." ++ toString 0 = "pax_list.0" := by decide
    refine ⟨by simp [handleNextTraveler, TriggerArg.fields, paxField, hz], ?_,
      fun h => absurd rfl h⟩
    intro hne hmem
    simp only [handleNextTraveler, TriggerArg.fields, if_true, List.mem_cons,
      List.mem_singleton, List.not_mem_nil, or_false] at hmem
    rcases hmem with h | h | h
    · exact hj.1 h
    · exact hj.2 h
    · exact hne (paxField_injective j 0 h)
  · refine ⟨by simp [handleNextTraveler, TriggerArg.fields, paxField, h0], ?_, ?_⟩
    · intro hne hmem
      simp only [handleNextTraveler, TriggerArg.fields, h0, if_false,
        List.mem_singleton] at hmem
      exact hne (paxField_injective j i hmem)
    · intro _
      simp only [handleNextTraveler, TriggerArg.fields, h0, if_false, List.mem_singleton]
      exact ⟨fun h => hi.1 h.symm, fun h => hi.2 h.symm⟩

/-- The witness of `handleNextTraveler_fields`: a request on step 2 validates
neither traveler 0 nor the contact fields. -/
theorem handleNextTraveler_fields_witness :
    paxField 0 ∉ (handleNextTraveler (fun _ => true) 2).triggered.fields ∧
      "contact.email" ∉ (handleNextTraveler (fun _ => true) 2).triggered.fields :=
  ⟨(handleNextTraveler_fields (fun _ => true) 2 0).2.1 (by decide),
   ((handleNextTraveler_fields (fun _ => true) 2 0).2.2 (by decide)).1⟩

/-- C10: the step set by a passing next request is the requested index plus
one whatever the current active step is; on the last index `n - 1` of `n >= 1`
travelers it is `n`, and the submit button, rendered exactly when the active
step equals `n - 1`, is then not rendered. -/
theorem nextRequest_last_hides_submit (trigger : TriggerArg → Bool) (n : Nat)
    (active other : Int) (hn : 1 ≤ n)
    (hpass : trigger (handleNextTraveler trigger (n - 1)).triggered = true) :
    (handleNextTraveler trigger (n - 1)).setActive = some (n : Int) ∧
      nextRequest trigger (n - 1) active = (n : Int) ∧
      nextRequest trigger (n - 1) other = nextRequest trigger (n - 1) active ∧
      (∀ a : Int, submitRendered a n = true ↔ a = (n : Int) - 1) ∧
      submitRendered (nextRequest trigger (n - 1) active) n = false := by
  have hcast : ((n - 1 : Nat) : Int) + 1 = (n : Int) := by omega
  have hset : (handleNextTraveler trigger (n - 1)).setActive = some (n : Int) := by
    have h := hpass
    unfold handleNextTraveler at h ⊢
    simp only at h ⊢
    rw [h, if_pos rfl, hcast]
  have hreq : ∀ a : Int, nextRequest trigger (n - 1) a = (n : Int) := by
    intro a
    simp [nextRequest, hset, applySetActive]
  refine ⟨hset, hreq active, by rw [hreq, hreq], ?_, ?_⟩
  · intro a
    simp [submitRendered]
  · rw [hreq]
    simp only [submitRendered, beq_eq_false_iff_ne, ne_eq]
    omega

/-- The witness of `nextRequest_last_hides_submit`: three travelers, a passing
request on index 2. -/
theorem nextRequest_last_hides_submit_witness :
    nextRequest (fun _ => true) (3 - 1) 2 = 3 ∧
      submitRendered (nextRequest (fun _ => true) (3 - 1) 2) 3 = false :=
  have h := nextRequest_last_hides_submit (fun _ => true) 3 2 0 (by decide) rfl
  ⟨h.2.1, h.2.2.2.2⟩

/-! ## The identity document of a payload passenger -/

theorem strictEqStr_iff (v : JsVal) (lit : String) :
    strictEqStr v lit = true ↔ v = JsVal.str lit := by
  cases v <;> simp [strictEqStr]

theorem jsOr_bool_false (v : JsVal) :
    (v.truthy = false → jsOr v (.bool false) = .bool false) ∧
      (v.truthy = true → jsOr v (.bool false) = v) ∧
      (v = .undefined → jsOr v (.bool false) = .bool false) ∧
      (∀ b, v = .bool b → jsOr v (.bool false) = .bool b) := by
  refine ⟨fun h => by simp [jsOr, h], fun h => by simp [jsOr, h],
    fun h => by simp [h, jsOr, JsVal.truthy], ?_⟩
  intro b hb
  subst hb
  cases b <;> simp [jsOr, JsVal.truthy]

theorem identityInfo_error_iff (D : JsDate) (pax : Pax) (e : JsError) :
    identityInfo D pax = .error e ↔
      pax.identity_info.type = .str "PASSPORT" ∧
        D.construct pax.identity_info.passport.end_date = none ∧ e = .rangeError := by
  unfold identityInfo
  by_cases hp : strictEqStr pax.identity_info.type "PASSPORT" = true
  · have ht := (strictEqStr_iff _ _).1 hp
    simp only [hp, if_true, JsDate.isoOf]
    cases hc : D.construct pax.identity_info.passport.end_date with
    | none =>
      simp only [ht, true_and]
      constructor
      · intro h; injection h with h; exact h.symm
      · intro h; rw [h]
    | some t => simp
  · have ht : pax.identity_info.type ≠ .str "PASSPORT" := fun h => hp ((strictEqStr_iff _ _).2 h)
    simp only [hp]
    constructor
    · intro h
      split at h
      · contradiction
      · split at h
        · cases h
        · split at h
          · cases h
          · split at h <;> cases h
    · intro h
      exact absurd h.1 ht

theorem identityInfo_ok_of_not_passport (D : JsDate) (pax : Pax)
    (h : pax.identity_info.type ≠ .str "PASSPORT") : ∃ info, identityInfo D pax = .ok info := by
  cases hr : identityInfo D pax with
  | ok info => exact ⟨info, rfl⟩
  | error e => exact absurd ((identityInfo_error_iff D pax e).1 hr).1 h

theorem identityInfo_ok_of_valid_date (D : JsDate) (pax : Pax)
    (h : D.construct pax.identity_info.passport.end_date ≠ none) :
    ∃ info, identityInfo D pax = .ok info := by
  cases hr : identityInfo D pax with
  | ok info => exact ⟨info, rfl⟩
  | error e => exact absurd ((identityInfo_error_iff D pax e).1 hr).2.1 h

theorem paxEntry_error_iff (D : JsDate) (pax : Pax) (e : JsError) :
    paxEntry D pax = .error e ↔ identityInfo D pax = .error e := by
  unfold paxEntry
  cases identityInfo D pax with
  | ok info => simp
  | error e2 => simp

theorem paxEntry_ok (D : JsDate) (pax : Pax) (q : PaxOut) (h : paxEntry D pax = .ok q) :
    q.name = pax.name ∧ q.lastname = pax.lastname ∧ q.birthdate = pax.birthdate ∧
      q.type = pax.type ∧ q.gender = pax.gender ∧ identityInfo D pax = .ok q.identity_info := by
  unfold paxEntry at h
  cases hi : identityInfo D pax with
  | ok info =>
    rw [hi] at h
    injection h with h
    subst h
    exact ⟨rfl, rfl, rfl, rfl, rfl, rfl⟩
  | error e =>
    rw [hi] at h
    cases h

/-! ## `map` with a raising callback -/

theorem mapRaising_ok {α β : Type} (f : α → Except JsError β) :
    ∀ (l : List α) (bs : List β), mapRaising f l = .ok bs →
      List.Forall₂ (fun a b => f a = .ok b) l bs := by
  intro l
  induction l with
  | nil =>
    intro bs h
    simp only [mapRaising] at h
    injection h with h
    subst h
    exact List.Forall₂.nil
  | cons a rest ih =>
    intro bs h
    simp only [mapRaising] at h
    cases ha : f a with
    | error e => rw [ha] at h; cases h
    | ok b =>
      rw [ha] at h
      cases hr : mapRaising f rest with
      | error e => rw [hr] at h; cases h
      | ok cs =>
        rw [hr] at h
        injection h with h
        subst h
        exact List.Forall₂.cons ha (ih cs hr)

theorem mapRaising_error {α β : Type} (f : α → Except JsError β) (e : JsError) :
    ∀ l : List α, mapRaising f l = .error e → ∃ a ∈ l, f a = .error e := by
  intro l
  induction l with
  | nil => intro h; simp [mapRaising] at h
  | cons a rest ih =>
    intro h
    simp only [mapRaising] at h
    cases ha : f a with
    | error e2 =>
      rw [ha] at h
      injection h with h
      subst h
      exact ⟨a, List.mem_cons_self _ _, ha⟩
    | ok b =>
      rw [ha] at h
      cases hr : mapRaising f rest with
      | error e2 =>
        rw [hr] at h
        injection h with h
        subst h
        obtain ⟨x, hx, hfx⟩ := ih hr
        exact ⟨x, List.mem_cons_of_mem _ hx, hfx⟩
      | ok cs => rw [hr] at h; cases h

theorem mapRaising_total {α β : Type} (f : α → Except JsError β) :
    ∀ l : List α, (∀ a ∈ l, ∃ b, f a = .ok b) → ∃ bs, mapRaising f l = .ok bs := by
  intro l
  induction l with
  | nil => intro _; exact ⟨[], rfl⟩
  | cons a rest ih =>
    intro h
    obtain ⟨b, hb⟩ := h a (List.mem_cons_self _ _)
    obtain ⟨bs, hbs⟩ := ih (fun x hx => h x (List.mem_cons_of_mem _ hx))
    exact ⟨b :: bs, by simp [mapRaising, hb, hbs]⟩

theorem mapRaising_of_error_mem {α β : Type} (f : α → Except JsError β) :
    ∀ l : List α, (∃ a ∈ l, ∃ e, f a = .error e) → ∃ e, mapRaising f l = .error e := by
  intro l
  induction l with
  | nil => rintro ⟨a, ha, _⟩; cases ha
  | cons x rest ih =>
    rintro ⟨a, ha, e, he⟩
    cases hx : f x with
    | error e2 => exact ⟨e2, by simp [mapRaising, hx]⟩
    | ok b =>
      rcases List.mem_cons.1 ha with h1 | h1
      · subst h1
        rw [he] at hx
        cases hx
      · obtain ⟨e3, he3⟩ := ih ⟨a, h1, e, he⟩
        exact ⟨e3, by simp [mapRaising, hx, he3]⟩

/-! ## `onSubmit` -/

theorem onSubmit_of_ok (D : JsDate) (g : JsVal → JsVal → JsVal) (store : FlightsStore)
    (data : FormData) (fd : FareDetails) (paxs : List PaxOut)
    (hfd : store.fare_details = some fd)
    (hmap : mapRaising (paxEntry D) data.pax_list = .ok paxs) :
    ∃ p : Payload, onSubmit D g store data = { logged := [p], booked := [p], raised := none } ∧
      p.book_details.fare_detail_key = fd.fare_detail_key ∧
      p.book_details.contact.email = data.contact.email ∧
      p.book_details.contact.phone.country_code = data.contact.phone.country_code ∧
      p.book_details.contact.phone.area_code = data.contact.phone.area_code ∧
      p.book_details.contact.phone.phone_number = data.contact.phone.phone_number ∧
      p.book_details.pax_list = paxs ∧
      p.book_details.notes = "Booking from Al3asal Travel Agency" ∧
      p.book_details.accept_pending = true ∧
      p.flight_details.depart_flight = store.dapart_flight ∧
      p.flight_details.return_flight = store.return_flight ∧
      p.grand_total = g (firstFareInfo store.dapart_flight) (firstFareInfo store.return_flight) := by
  refine ⟨
    { book_details :=
        { fare_detail_key := fd.fare_detail_key
          contact :=
            { email := data.contact.email
              phone :=
                { country_code := data.contact.phone.country_code
                  area_code := data.contact.phone.area_code
                  phone_number := data.contact.phone.phone_number } }
          pax_list := paxs
          notes := "Booking from Al3asal Travel Agency"
          accept_pending := true }
      flight_details :=
        { depart_flight := store.dapart_flight
          return_flight := store.return_flight }
      grand_total :=
        g (firstFareInfo store.dapart_flight) (firstFareInfo store.return_flight) },
    ?_, rfl, rfl, rfl, rfl, rfl, rfl, rfl, rfl, rfl, rfl, rfl⟩
  simp only [onSubmit, buildPayload, hfd, hmap]

theorem onSubmit_of_error (D : JsDate) (g : JsVal → JsVal → JsVal) (store : FlightsStore)
    (data : FormData) (fd : FareDetails) (e : JsError)
    (hfd : store.fare_details = some fd)
    (hmap : mapRaising (paxEntry D) data.pax_list = .error e) :
    onSubmit D g store data = { logged := [], booked := [], raised := some e } := by
  simp only [onSubmit, buildPayload, hfd, hmap]

theorem onSubmit_completes (D : JsDate) (g : JsVal → JsVal → JsVal) (store : FlightsStore)
    (data : FormData) (h : (onSubmit D g store data).raised = none) :
    ∃ fd paxs, store.fare_details = some fd ∧
      mapRaising (paxEntry D) data.pax_list = .ok paxs := by
  cases hfd : store.fare_details with
  | none => simp [onSubmit, buildPayload, hfd] at h
  | some fd =>
    cases hmap : mapRaising (paxEntry D) data.pax_list with
    | error e => rw [onSubmit_of_error D g store data fd e hfd hmap] at h; cases h
    | ok paxs => exact ⟨fd, paxs, rfl, rfl⟩

theorem onSubmit_booked_mem (D : JsDate) (g : JsVal → JsVal → JsVal) (store : FlightsStore)
    (data : FormData) (p : Payload) (h : p ∈ (onSubmit D g store data).booked) :
    (onSubmit D g store data).raised = none ∧ (onSubmit D g store data).booked = [p] := by
  cases hfd : store.fare_details with
  | none => simp [onSubmit, buildPayload, hfd] at h
  | some fd =>
    cases hmap : mapRaising (paxEntry D) data.pax_list with
    | error e => rw [onSubmit_of_error D g store data fd e hfd hmap] at h; cases h
    | ok paxs =>
      obtain ⟨q, hq, _⟩ := onSubmit_of_ok D g store data fd paxs hfd hmap
      rw [hq] at h ⊢
      simp only [List.mem_singleton] at h
      subst h
      exact ⟨rfl, rfl⟩

theorem forall₂_paxEntry_fields (D : JsDate) (l : List Pax) (bs : List PaxOut)
    (h : List.Forall₂ (fun a b => paxEntry D a = .ok b) l bs) :
    bs.map (fun q => (q.name, q.lastname, q.birthdate, q.type, q.gender)) =
        l.map (fun x => (x.name, x.lastname, x.birthdate, x.type, x.gender)) ∧
      bs.map (fun q => Except.ok q.identity_info) = l.map (identityInfo D) := by
  induction h with
  | nil => exact ⟨rfl, rfl⟩
  | cons hab _ ih =>
    obtain ⟨h1, h2, h3, h4, h5, h6⟩ := paxEntry_ok D _ _ hab
    simp only [List.map_cons, ih.1, ih.2, h1, h2, h3, h4, h5, h6, and_self]

theorem jsOr_false_isBool (v : JsVal) (h : v = .undefined ∨ ∃ b, v = .bool b) :
    ∃ b, jsOr v (.bool false) = .bool b := by
  rcases h with h | ⟨b, h⟩
  · exact ⟨false, (jsOr_bool_false v).2.2.1 h⟩
  · exact ⟨b, (jsOr_bool_false v).2.2.2 b h⟩

/-- C3: for a passenger whose identity type is one of PASSPORT, CNIC, FOID, TC
(with a valid passport end date in the PASSPORT case) the `identity_info`
built for the payload carries the type tag, each citizenship flag as `false`
when the form value is falsy and as the form value otherwise (a boolean when
the form value is a boolean or absent), and exactly the document sub-record
named by the tag, the other three being absent. -/
theorem identityInfo_tagged (D : JsDate) (pax : Pax) (tag : String)
    (htag : tag ∈ ["PASSPORT", "CNIC", "FOID", "TC"])
    (htype : pax.identity_info.type = .str tag)
    (hdate : tag = "PASSPORT" → D.construct pax.identity_info.passport.end_date ≠ none) :
    ∃ info : IdentityOut, identityInfo D pax = .ok info ∧
      info.type = .str tag ∧
      info.not_turkish_citizen =
        (if pax.identity_info.not_turkish_citizen.truthy = true
          then pax.identity_info.not_turkish_citizen else .bool false) ∧
      info.not_pakistan_citizen =
        (if pax.identity_info.not_pakistan_citizen.truthy = true
          then pax.identity_info.not_pakistan_citizen else .bool false) ∧
      ((pax.identity_info.not_turkish_citizen = .undefined ∨
          ∃ b, pax.identity_info.not_turkish_citizen = .bool b) →
        ∃ b, info.not_turkish_citizen = .bool b) ∧
      ((pax.identity_info.not_pakistan_citizen = .undefined ∨
          ∃ b, pax.identity_info.not_pakistan_citizen = .bool b) →
        ∃ b, info.not_pakistan_citizen = .bool b) ∧
      info.passport =
        (if tag = "PASSPORT" then
          (D.construct pax.identity_info.passport.end_date).map fun t =>
            { no := pax.identity_info.passport.no
              end_date := .str (D.toISOString t)
              citizenship_country := pax.identity_info.passport.citizenship_country }
         else none) ∧
      info.cnic = (if tag = "CNIC" then some { no := pax.identity_info.cnic.no } else none) ∧
      info.foid =
        (if tag = "FOID" then
          some { no := pax.identity_info.foid.no
                 citizenship_country := pax.identity_info.foid.citizenship_country }
         else none) ∧
      info.tc =
        (if tag = "TC" then
          some { no := pax.identity_info.tc.no
                 hes_code :=
                   if pax.identity_info.tc.hes_code.truthy = true
                     then pax.identity_info.tc.hes_code else .str "" }
         else none) := by
  simp only [List.mem_cons, List.mem_singleton, List.not_mem_nil, or_false] at htag
  rcases htag with rfl | rfl | rfl | rfl
  · obtain ⟨t, ht⟩ := Option.ne_none_iff_exists'.1 (hdate rfl)
    have hinfo : identityInfo D pax = .ok
        { type := .str "PASSPORT"
          not_turkish_citizen := jsOr pax.identity_info.not_turkish_citizen (.bool false)
          not_pakistan_citizen := jsOr pax.identity_info.not_pakistan_citizen (.bool false)
          passport := some
            { no := pax.identity_info.passport.no
              end_date := .str (D.toISOString t)
              citizenship_country := pax.identity_info.passport.citizenship_country }
          cnic := none
          foid := none
          tc := none } := by
      simp [identityInfo, htype, strictEqStr, JsDate.isoOf, ht]
    refine ⟨_, hinfo, rfl, rfl, rfl, jsOr_false_isBool _, jsOr_false_isBool _, ?_, ?_, ?_, ?_⟩
    · simp [ht]
    · simp
    · simp
    · simp
  · have hinfo : identityInfo D pax = .ok
        { type := .str "CNIC"
          not_turkish_citizen := jsOr pax.identity_info.not_turkish_citizen (.bool false)
          not_pakistan_citizen := jsOr pax.identity_info.not_pakistan_citizen (.bool false)
          passport := none
          cnic := some { no := pax.identity_info.cnic.no }
          foid := none
          tc := none } := by
      simp [identityInfo, htype, strictEqStr]
    refine ⟨_, hinfo, rfl, rfl, rfl, jsOr_false_isBool _, jsOr_false_isBool _, ?_, ?_, ?_, ?_⟩
    · simp
    · simp
    · simp
    · simp
  · have hinfo : identityInfo D pax = .ok
        { type := .str "FOID"
          not_turkish_citizen := jsOr pax.identity_info.not_turkish_citizen (.bool false)
          not_pakistan_citizen := jsOr pax.identity_info.not_pakistan_citizen (.bool false)
          passport := none
          cnic := none
          foid := some
            { no := pax.identity_info.foid.no
              citizenship_country := pax.identity_info.foid.citizenship_country }
          tc := none } := by
      simp [identityInfo, htype, strictEqStr]
    refine ⟨_, hinfo, rfl, rfl, rfl, jsOr_false_isBool _, jsOr_false_isBool _, ?_, ?_, ?_, ?_⟩
    · simp
    · simp
    · simp
    · simp
  · have hinfo : identityInfo D pax = .ok
        { type := .str "TC"
          not_turkish_citizen := jsOr pax.identity_info.not_turkish_citizen (.bool false)
          not_pakistan_citizen := jsOr pax.identity_info.not_pakistan_citizen (.bool false)
          passport := none
          cnic := none
          foid := none
          tc := some
            { no := pax.identity_info.tc.no
              hes_code := jsOr pax.identity_info.tc.hes_code (.str "") } } := by
      simp [identityInfo, htype, strictEqStr]
    refine ⟨_, hinfo, rfl, rfl, rfl, jsOr_false_isBool _, jsOr_false_isBool _, ?_, ?_, ?_, ?_⟩
    · simp
    · simp
    · simp
    · simp [jsOr]

/-- The witness of `identityInfo_tagged`: a Turkish-ID passenger whose
`hes_code` is missing gets only the `tc` sub-record, with an empty `hes_code`. -/
theorem identityInfo_tagged_witness :
    ∃ info : IdentityOut,
      identityInfo sampleDate
          { samplePax (.str "TC") "" with
            identity_info :=
              { (samplePax (.str "TC") "").identity_info with
                tc := { no := .str "T9", hes_code := .undefined } } } = .ok info ∧
        info.passport = none ∧ info.cnic = none ∧ info.foid = none ∧
        info.tc = some { no := .str "T9", hes_code := .str "" } := by
  obtain ⟨info, h, _, _, _, _, _, hp, hc, hf, ht⟩ :=
    identityInfo_tagged sampleDate
      { samplePax (.str "TC") "" with
        identity_info :=
          { (samplePax (.str "TC") "").identity_info with
            tc := { no := .str "T9", hes_code := .undefined } } }
      "TC" (by decide) rfl (by decide)
  exact ⟨info, h, by simpa using hp, by simpa using hc, by simpa using hf,
    by simpa [JsVal.truthy] using ht⟩

/-- The identity type of the sample passenger tagged `NATIONAL_ID` is none of
the four known tags. -/
theorem sampleUntagged_type :
    ∀ tag ∈ ["PASSPORT", "CNIC", "FOID", "TC"],
      (samplePax (.str "NATIONAL_ID") "").identity_info.type ≠ .str tag := by
  intro tag htag h
  injection h with h
  subst h
  revert htag
  decide

/-- C9: for a passenger whose identity type is none of PASSPORT, CNIC, FOID,
TC the `identity_info` built for the payload is the type tag and the two
citizenship flags with no document sub-record, the `map` callback does not
raise on the passenger, and a form holding that passenger is submitted. -/
theorem identityInfo_untagged (D : JsDate) (pax : Pax)
    (htype : ∀ tag ∈ ["PASSPORT", "CNIC", "FOID", "TC"], pax.identity_info.type ≠ .str tag) :
    identityInfo D pax = .ok
        { type := pax.identity_info.type
          not_turkish_citizen :=
            if pax.identity_info.not_turkish_citizen.truthy = true
              then pax.identity_info.not_turkish_citizen else .bool false
          not_pakistan_citizen :=
            if pax.identity_info.not_pakistan_citizen.truthy = true
              then pax.identity_info.not_pakistan_citizen else .bool false
          passport := none
          cnic := none
          foid := none
          tc := none } ∧
      (∀ e, paxEntry D pax ≠ .error e) ∧
      (∀ (g : JsVal → JsVal → JsVal) (store : FlightsStore) (fd : FareDetails)
          (contact : Contact), store.fare_details = some fd →
        (onSubmit D g store { contact := contact, pax_list := [pax] }).raised = none ∧
          ((onSubmit D g store { contact := contact, pax_list := [pax] }).booked.map
            fun p => p.book_details.pax_list.map fun q =>
              (q.identity_info.passport.isSome, q.identity_info.cnic.isSome,
                q.identity_info.foid.isSome, q.identity_info.tc.isSome)) =
            [[(false, false, false, false)]]) := by
  have hno : ∀ tag ∈ ["PASSPORT", "CNIC", "FOID", "TC"],
      strictEqStr pax.identity_info.type tag = false := by
    intro tag htag
    rw [Bool.eq_false_iff]
    exact fun h => htype tag htag ((strictEqStr_iff _ _).1 h)
  have hinfo : identityInfo D pax = .ok
      { type := pax.identity_info.type
        not_turkish_citizen :=
          if pax.identity_info.not_turkish_citizen.truthy = true
            then pax.identity_info.not_turkish_citizen else .bool false
        not_pakistan_citizen :=
          if pax.identity_info.not_pakistan_citizen.truthy = true
            then pax.identity_info.not_pakistan_citizen else .bool false
        passport := none
        cnic := none
        foid := none
        tc := none } := by
    simp [identityInfo, hno "PASSPORT" (by simp), hno "CNIC" (by simp), hno "FOID" (by simp),
      hno "TC" (by simp), jsOr]
  refine ⟨hinfo, ?_, ?_⟩
  · intro e he
    rw [paxEntry_error_iff, hinfo] at he
    cases he
  · intro g store fd contact hfd
    have hentry : mapRaising (paxEntry D) [pax] = .ok
        [{ name := pax.name, lastname := pax.lastname, birthdate := pax.birthdate,
           type := pax.type, gender := pax.gender
           identity_info :=
             { type := pax.identity_info.type
               not_turkish_citizen :=
                 if pax.identity_info.not_turkish_citizen.truthy = true
                   then pax.identity_info.not_turkish_citizen else .bool false
               not_pakistan_citizen :=
                 if pax.identity_info.not_pakistan_citizen.truthy = true
                   then pax.identity_info.not_pakistan_citizen else .bool false
               passport := none
               cnic := none
               foid := none
               tc := none } }] := by
      simp [mapRaising, paxEntry, hinfo]
    obtain ⟨p, hp, _, _, _, _, _, hpax, _⟩ :=
      onSubmit_of_ok D g store { contact := contact, pax_list := [pax] } fd _ hfd hentry
    rw [hp]
    simp [hpax]

/-- The witness of `identityInfo_untagged`: a form holding one passenger
tagged `NATIONAL_ID` is submitted. -/
theorem identityInfo_untagged_witness :
    (onSubmit sampleDate sampleTotalPrice sampleStore
      { contact := (sampleForm []).contact
        pax_list := [samplePax (.str "NATIONAL_ID") ""] }).raised = none :=
  ((identityInfo_untagged sampleDate (samplePax (.str "NATIONAL_ID") "")
    sampleUntagged_type).2.2 sampleTotalPrice sampleStore _ (sampleForm []).contact rfl).1

/-! ## The payload -/

/-- C4: when `onSubmit` completes, the payload's passenger list has the length
of the form's passenger list and its `k`-th entry carries the name, lastname,
birthdate, type and gender of the form's `k`-th passenger, with the
`identity_info` built from that passenger. -/
theorem onSubmit_pax_list (D : JsDate) (g : JsVal → JsVal → JsVal) (store : FlightsStore)
    (data : FormData) (h : (onSubmit D g store data).raised = none) :
    ∃ p : Payload, (onSubmit D g store data).booked = [p] ∧
      p.book_details.pax_list.length = data.pax_list.length ∧
      (∀ (k : Nat) (h1 : k < p.book_details.pax_list.length) (h2 : k < data.pax_list.length),
        (p.book_details.pax_list.get ⟨k, h1⟩).name = (data.pax_list.get ⟨k, h2⟩).name ∧
        (p.book_details.pax_list.get ⟨k, h1⟩).lastname = (data.pax_list.get ⟨k, h2⟩).lastname ∧
        (p.book_details.pax_list.get ⟨k, h1⟩).birthdate =
          (data.pax_list.get ⟨k, h2⟩).birthdate ∧
        (p.book_details.pax_list.get ⟨k, h1⟩).type = (data.pax_list.get ⟨k, h2⟩).type ∧
        (p.book_details.pax_list.get ⟨k, h1⟩).gender = (data.pax_list.get ⟨k, h2⟩).gender ∧
        identityInfo D (data.pax_list.get ⟨k, h2⟩) =
          .ok (p.book_details.pax_list.get ⟨k, h1⟩).identity_info) ∧
      p.book_details.pax_list.map (fun q => (q.name, q.lastname, q.birthdate, q.type, q.gender)) =
        data.pax_list.map (fun x => (x.name, x.lastname, x.birthdate, x.type, x.gender)) := by
  obtain ⟨fd, paxs, hfd, hmap⟩ := onSubmit_completes D g store data h
  obtain ⟨p, hp, _, _, _, _, _, hpax, _⟩ := onSubmit_of_ok D g store data fd paxs hfd hmap
  have hall := mapRaising_ok (paxEntry D) data.pax_list paxs hmap
  rw [← hpax] at hall
  refine ⟨p, by rw [hp], hall.length_eq.symm, ?_, (forall₂_paxEntry_fields D _ _ hall).1⟩
  intro k h1 h2
  exact paxEntry_ok D _ _ ((List.forall₂_iff_get.1 hall).2 k h2 h1)

/-- The witness of `onSubmit_pax_list`: a form with a passport passenger and a
CNIC passenger yields a payload with two passengers. -/
theorem onSubmit_pax_list_witness :
    ∃ p : Payload,
      (onSubmit sampleDate sampleTotalPrice sampleStore
        (sampleForm [samplePax (.str "PASSPORT") "2030-01-01",
          samplePax (.str "CNIC") ""])).booked = [p] ∧
      p.book_details.pax_list.length = 2 := by
  obtain ⟨p, hp, hlen, _⟩ :=
    onSubmit_pax_list sampleDate sampleTotalPrice sampleStore
      (sampleForm [samplePax (.str "PASSPORT") "2030-01-01", samplePax (.str "CNIC") ""]) rfl
  exact ⟨p, hp, hlen⟩

/-- C5: when `onSubmit` completes, the object passed to the booking function
carries the store's fare detail key, the form's email and phone parts, the
fixed notes string, `accept_pending` true, and the store's two flight records
unchanged. -/
theorem onSubmit_payload (D : JsDate) (g : JsVal → JsVal → JsVal) (store : FlightsStore)
    (data : FormData) (h : (onSubmit D g store data).raised = none) :
    ∃ (p : Payload) (fd : FareDetails), store.fare_details = some fd ∧
      (onSubmit D g store data).booked = [p] ∧
      p.book_details.fare_detail_key = fd.fare_detail_key ∧
      p.book_details.contact.email = data.contact.email ∧
      p.book_details.contact.phone.country_code = data.contact.phone.country_code ∧
      p.book_details.contact.phone.area_code = data.contact.phone.area_code ∧
      p.book_details.contact.phone.phone_number = data.contact.phone.phone_number ∧
      p.book_details.notes = "Booking from Al3asal Travel Agency" ∧
      p.book_details.accept_pending = true ∧
      p.flight_details.depart_flight = store.dapart_flight ∧
      p.flight_details.return_flight = store.return_flight := by
  obtain ⟨fd, paxs, hfd, hmap⟩ := onSubmit_completes D g store data h
  obtain ⟨p, hp, h1, h2, h3, h4, h5, _, h7, h8, h9, h10, _⟩ :=
    onSubmit_of_ok D g store data fd paxs hfd hmap
  exact ⟨p, fd, hfd, by rw [hp], h1, h2, h3, h4, h5, h7, h8, h9, h10⟩

/-- The witness of `onSubmit_payload`: the sample form with no passenger is
submitted with the fixed notes string. -/
theorem onSubmit_payload_witness :
    ∃ p : Payload,
      (onSubmit sampleDate sampleTotalPrice sampleStore (sampleForm [])).booked = [p] ∧
      p.book_details.notes = "Booking from Al3asal Travel Agency" ∧
      p.flight_details.return_flight = none := by
  obtain ⟨p, fd, _, hp, _, _, _, _, _, hn, _, _, hr⟩ :=
    onSubmit_payload sampleDate sampleTotalPrice sampleStore (sampleForm []) rfl
  exact ⟨p, hp, hn, hr⟩

/-- C6: the payload's `grand_total` is `getTotalPrice` applied to the
`fare_info` of the first fare of the departing flight and of the return
flight, each argument being `undefined` when the flight, its fares list or its
first fare is absent; it is the same for every form record. -/
theorem onSubmit_grand_total (D : JsDate) (g : JsVal → JsVal → JsVal) (store : FlightsStore)
    (data other : FormData) (p q : Payload)
    (hp : p ∈ (onSubmit D g store data).booked)
    (hq : q ∈ (onSubmit D g store other).booked) :
    p.grand_total = g (firstFareInfo store.dapart_flight) (firstFareInfo store.return_flight) ∧
      q.grand_total = p.grand_total ∧
      (∀ flight : Option Flight,
        (flight = none → firstFareInfo flight = .undefined) ∧
        (∀ f, flight = some f → f.fares = none → firstFareInfo flight = .undefined) ∧
        (∀ f fares, flight = some f → f.fares = some fares →
          (fares = [] ∨ fares.head? = some none) → firstFareInfo flight = .undefined) ∧
        (∀ f fares fare, flight = some f → f.fares = some fares →
          fares.head? = some (some fare) → firstFareInfo flight = fare.fare_info)) := by
  have total : ∀ (d : FormData) (r : Payload), r ∈ (onSubmit D g store d).booked →
      r.grand_total =
        g (firstFareInfo store.dapart_flight) (firstFareInfo store.return_flight) := by
    intro d r hr
    obtain ⟨hnone, _⟩ := onSubmit_booked_mem D g store d r hr
    obtain ⟨fd, paxs, hfd, hmap⟩ := onSubmit_completes D g store d hnone
    obtain ⟨r2, hr2, _, _, _, _, _, _, _, _, _, _, ht⟩ :=
      onSubmit_of_ok D g store d fd paxs hfd hmap
    rw [hr2] at hr
    simp only [List.mem_singleton] at hr
    rw [hr, ht]
  refine ⟨total data p hp, by rw [total other q hq, total data p hp], ?_⟩
  intro flight
  refine ⟨?_, ?_, ?_, ?_⟩
  · intro h
    subst h
    rfl
  · intro f hf hfares
    subst hf
    simp [firstFareInfo, hfares]
  · intro f fares hf hfares hfirst
    subst hf
    cases fares with
    | nil => simp [firstFareInfo, hfares]
    | cons x rest =>
      rcases hfirst with h | h
      · cases h
      · simp only [List.head?_cons, Option.some.injEq] at h
        subst h
        simp [firstFareInfo, hfares]
  · intro f fares fare hf hfares hfirst
    subst hf
    cases fares with
    | nil => simp at hfirst
    | cons x rest =>
      simp only [List.head?_cons, Option.some.injEq] at hfirst
      subst hfirst
      simp [firstFareInfo, hfares]

/-- The witness of `onSubmit_grand_total`: with one departing fare of 4907 and
no return flight, two different forms are booked with the same total. -/
theorem onSubmit_grand_total_witness :
    ∃ p q : Payload,
      p ∈ (onSubmit sampleDate sampleTotalPrice sampleStore (sampleForm [])).booked ∧
      q ∈ (onSubmit sampleDate sampleTotalPrice sampleStore
        (sampleForm [samplePax (.str "CNIC") ""])).booked ∧
      p.grand_total = sampleTotalPrice (.num 4907) .undefined ∧
      q.grand_total = p.grand_total := by
  obtain ⟨p, hp, _⟩ :=
    onSubmit_of_ok sampleDate sampleTotalPrice sampleStore (sampleForm []) _ _ rfl rfl
  obtain ⟨q, hq, _⟩ :=
    onSubmit_of_ok sampleDate sampleTotalPrice sampleStore
      (sampleForm [samplePax (.str "CNIC") ""]) _ _ rfl rfl
  have hpm : p ∈ (onSubmit sampleDate sampleTotalPrice sampleStore (sampleForm [])).booked := by
    rw [hp]; exact List.mem_singleton.2 rfl
  have hqm : q ∈ (onSubmit sampleDate sampleTotalPrice sampleStore
      (sampleForm [samplePax (.str "CNIC") ""])).booked := by
    rw [hq]; exact List.mem_singleton.2 rfl
  have h := onSubmit_grand_total sampleDate sampleTotalPrice sampleStore (sampleForm [])
    (sampleForm [samplePax (.str "CNIC") ""]) p q hpm hqm
  exact ⟨p, q, hpm, hqm, h.1, h.2.1⟩

/-! ## The default passenger list -/

theorem arrayFromLength_const {α : Type} (n : Int) (c : α) :
    arrayFromLength n (fun _ => c) = List.replicate n.toNat c := by
  simp [arrayFromLength, List.map_const']

theorem replicate_groups_length (groups : List PaxGroup)
    (hcount : ∀ grp ∈ groups, 0 ≤ grp.count) :
    ((groups.flatMap fun grp =>
        List.replicate grp.count.toNat (defaultPax grp.type)).length : Int) =
      (groups.map fun grp => grp.count).sum := by
  induction groups with
  | nil => simp
  | cons grp rest ih =>
    have h0 : 0 ≤ grp.count := hcount grp (List.mem_cons_self _ _)
    have ih2 := ih (fun x hx => hcount x (List.mem_cons_of_mem _ hx))
    simp only [List.flatMap_cons, List.length_append, List.length_replicate, List.map_cons,
      List.sum_cons, Nat.cast_add, ih2, Int.toNat_of_nonneg h0]

/-- C7: for a search filter whose groups have non-negative counts, the default
passenger list has as many records as the sum of the counts and is, in group
order, `count` copies per group of the record with that group's type and the
form defaults. -/
theorem paxDefaults_spec (flightsFilter : FlightsFilter)
    (hcount : ∀ grp ∈ flightsFilter.pax_list, 0 ≤ grp.count) :
    ((paxDefaults flightsFilter).length : Int) =
        (flightsFilter.pax_list.map fun grp => grp.count).sum ∧
      paxDefaults flightsFilter =
        flightsFilter.pax_list.flatMap fun grp =>
          List.replicate grp.count.toNat
            { type := grp.type
              name := .str ""
              lastname := .str ""
              birthdate := .str ""
              gender := .str "MALE"
              identity_info :=
                { type := .str "PASSPORT"
                  passport :=
                    { no := .str "", end_date := .str "", citizenship_country := .str "SY" }
                  cnic := { no := .str "" }
                  foid := { no := .str "", citizenship_country := .str "SY" }
                  tc := { no := .str "", hes_code := .str "" }
                  not_turkish_citizen := .bool false
                  not_pakistan_citizen := .bool false } } := by
  have hlist : paxDefaults flightsFilter =
      flightsFilter.pax_list.flatMap fun grp =>
        List.replicate grp.count.toNat (defaultPax grp.type) := by
    simp only [paxDefaults, arrayFromLength_const]
  refine ⟨?_, hlist⟩
  rw [hlist]
  exact replicate_groups_length flightsFilter.pax_list hcount

/-- The witness of `paxDefaults_spec`: two adults and one child give
three default records. -/
theorem paxDefaults_spec_witness :
    ((paxDefaults
      { pax_list := [{ type := .str "ADT", count := 2 }, { type := .str "CHD", count := 1 }] }
      ).length : Int) = 3 :=
  (paxDefaults_spec
    { pax_list := [{ type := .str "ADT", count := 2 }, { type := .str "CHD", count := 1 }] }
    (by
      intro grp hgrp
      simp only [List.mem_cons, List.mem_singleton, List.not_mem_nil, or_false] at hgrp
      rcases hgrp with h | h <;> subst h <;> decide)).1

/-! ## When `onSubmit` raises -/

theorem onSubmit_cases (D : JsDate) (g : JsVal → JsVal → JsVal) (store : FlightsStore)
    (data : FormData) (fd : FareDetails) (hfd : store.fare_details = some fd) :
    (∃ p, onSubmit D g store data = { logged := [p], booked := [p], raised := none } ∧
        ∀ pax ∈ data.pax_list, ∀ e, identityInfo D pax ≠ .error e) ∨
      (onSubmit D g store data =
          { logged := [], booked := [], raised := some .rangeError } ∧
        ∃ pax ∈ data.pax_list, identityInfo D pax = .error .rangeError) := by
  cases hmap : mapRaising (paxEntry D) data.pax_list with
  | ok paxs =>
    left
    obtain ⟨p, hp, _⟩ := onSubmit_of_ok D g store data fd paxs hfd hmap
    refine ⟨p, hp, ?_⟩
    intro pax hpax e he
    obtain ⟨e2, he2⟩ := mapRaising_of_error_mem (paxEntry D) data.pax_list
      ⟨pax, hpax, e, (paxEntry_error_iff D pax e).2 he⟩
    rw [hmap] at he2
    cases he2
  | error e =>
    right
    obtain ⟨pax, hpax, he⟩ := mapRaising_error (paxEntry D) e data.pax_list hmap
    have hi := (paxEntry_error_iff D pax e).1 he
    have hr : e = .rangeError := ((identityInfo_error_iff D pax e).1 hi).2.2
    subst hr
    exact ⟨onSubmit_of_error D g store data fd _ hfd hmap, pax, hpax, hi⟩

/-- C8: with the fare details present, `onSubmit` raises exactly when some
passenger of identity type PASSPORT has a passport end date that is not a
valid date; when it raises the booking function is not called, when it does
not the booking function is called exactly once; a passenger left at the
form defaults makes it raise as soon as the empty string is not a valid date. -/
theorem onSubmit_raises_iff (D : JsDate) (g : JsVal → JsVal → JsVal) (store : FlightsStore)
    (data : FormData) (fd : FareDetails) (hfd : store.fare_details = some fd) :
    ((onSubmit D g store data).raised ≠ none ↔
        ∃ pax ∈ data.pax_list, pax.identity_info.type = .str "PASSPORT" ∧
          D.construct pax.identity_info.passport.end_date = none) ∧
      ((onSubmit D g store data).raised ≠ none →
        (onSubmit D g store data).raised = some .rangeError ∧
          (onSubmit D g store data).booked = []) ∧
      ((onSubmit D g store data).raised = none →
        (onSubmit D g store data).booked.length = 1) ∧
      (D.construct (.str "") = none → ∀ (type : JsVal) (rest : List Pax),
        (onSubmit D g store { data with pax_list := defaultPax type :: rest }).raised =
            some .rangeError ∧
          (onSubmit D g store { data with pax_list := defaultPax type :: rest }).booked = []) := by
  refine ⟨?_, ?_, ?_, ?_⟩
  · rcases onSubmit_cases D g store data fd hfd with ⟨p, hp, hall⟩ | ⟨hr, pax, hpax, he⟩
    · rw [hp]
      constructor
      · intro h
        exact absurd rfl h
      · rintro ⟨pax, hpax, ht, hd⟩
        exact absurd ((identityInfo_error_iff D pax .rangeError).2 ⟨ht, hd, rfl⟩)
          (hall pax hpax _)
    · rw [hr]
      have h := (identityInfo_error_iff D pax .rangeError).1 he
      exact ⟨fun _ => ⟨pax, hpax, h.1, h.2.1⟩, fun _ => by simp⟩
  · rcases onSubmit_cases D g store data fd hfd with ⟨p, hp, _⟩ | ⟨hr, _⟩
    · rw [hp]
      intro h
      exact absurd rfl h
    · rw [hr]
      exact fun _ => ⟨rfl, rfl⟩
  · rcases onSubmit_cases D g store data fd hfd with ⟨p, hp, _⟩ | ⟨hr, _⟩
    · rw [hp]
      exact fun _ => rfl
    · rw [hr]
      intro h
      cases h
  · intro hempty type rest
    rcases onSubmit_cases D g store { data with pax_list := defaultPax type :: rest } fd hfd
      with ⟨p, _, hall⟩ | ⟨hr, _⟩
    · exact absurd
        ((identityInfo_error_iff D (defaultPax type) .rangeError).2 ⟨rfl, hempty, rfl⟩)
        (hall (defaultPax type) (List.mem_cons_self _ _) _)
    · rw [hr]
      exact ⟨rfl, rfl⟩

/-- The witness of `onSubmit_raises_iff`: a form whose one passenger is left at
the defaults raises a `RangeError` and books nothing. -/
theorem onSubmit_raises_iff_witness :
    (onSubmit sampleDate sampleTotalPrice sampleStore
        { sampleForm [] with pax_list := [defaultPax (.str "ADT")] }).raised =
          some .rangeError ∧
      (onSubmit sampleDate sampleTotalPrice sampleStore
        { sampleForm [] with pax_list := [defaultPax (.str "ADT")] }).booked = [] :=
  (onSubmit_raises_iff sampleDate sampleTotalPrice sampleStore (sampleForm []) _ rfl).2.2.2
    rfl (.str "ADT") []

end PassengerDetails
